import Mathlib

/-!
Verification development for the Weather web app (`Weather-app.py`).

The program is embedded shallowly:

* Python strings are modelled at the ASCII level as lists of code points
  (`List Nat`); `str.strip`, `str.title`, `str.lower` and the substring
  operator `in` are translated character by character from CPython's
  behaviour on ASCII input.
* The random draws consumed by `WeatherService.fetch_weather_data`
  (`random.uniform(-5, 5)`, `random.choice`, `random.randint(30, 90)`,
  `random.randint(980, 1040)`, `random.uniform(0, 20)`) are an explicit
  parameter, a `RandDraws` record; the predicate `RandDraws.Valid` states
  the ranges those library calls guarantee.  The clock
  (`datetime.now().isoformat()`) is an explicit string parameter.
* Real-valued quantities are rationals; `round(x, 1)` is `round1`.
-/

set_option autoImplicit false

/-- Code points of a string literal (ASCII-level model of a Python `str`). -/
def strNat (s : String) : List Nat := s.toList.map Char.toNat

/-- Python whitespace test on the ASCII range (tab through carriage return,
and space), as used by `str.strip()`. -/
def pySpace (n : Nat) : Bool := decide ((9 ≤ n ∧ n ≤ 13) ∨ n = 32)

/-- ASCII lowercase letter. -/
def lowerAlpha (n : Nat) : Bool := decide (97 ≤ n ∧ n ≤ 122)

/-- ASCII uppercase letter. -/
def upperAlpha (n : Nat) : Bool := decide (65 ≤ n ∧ n ≤ 90)

/-- ASCII cased character: the word-boundary test of `str.title()`. -/
def casedChar (n : Nat) : Bool := lowerAlpha n || upperAlpha n

/-- Uppercase one ASCII code point. -/
def upChar (n : Nat) : Nat := if lowerAlpha n then n - 32 else n

/-- Lowercase one ASCII code point. -/
def lowChar (n : Nat) : Nat := if upperAlpha n then n + 32 else n

/-- `str.lstrip()`: drop leading whitespace. -/
def lstrip (l : List Nat) : List Nat := l.dropWhile pySpace

/-- `str.rstrip()`: drop trailing whitespace. -/
def rstrip (l : List Nat) : List Nat := (l.reverse.dropWhile pySpace).reverse

/-- `str.strip()`: drop whitespace at both ends. -/
def pyStrip (l : List Nat) : List Nat := rstrip (lstrip l)

/-- `str.lower()` on ASCII text. -/
def pyLower (l : List Nat) : List Nat := l.map lowChar

/-- Worker for `str.title()`: the flag records whether the previous
character was cased.  A cased character after an uncased one is
uppercased, a cased character after a cased one is lowercased, uncased
characters pass through. -/
def titleAux : Bool → List Nat → List Nat
  | _, [] => []
  | prev, c :: cs =>
    (if casedChar c then (if prev then lowChar c else upChar c) else c)
      :: titleAux (casedChar c) cs

/-- `str.title()` on ASCII text. -/
def pyTitle (l : List Nat) : List Nat := titleAux false l

/-- The normalization applied by the generator: `city.strip().title()`. -/
def normalizeCity (l : List Nat) : List Nat := pyTitle (pyStrip l)

/-- Does `l` begin with `p`? -/
def beginsWith : List Nat → List Nat → Bool
  | _, [] => true
  | [], _ :: _ => false
  | a :: as, b :: bs => a == b && beginsWith as bs

/-- Python substring test `p in l`. -/
def hasSub : List Nat → List Nat → Bool
  | [], p => beginsWith [] p
  | c :: cs, p => beginsWith (c :: cs) p || hasSub cs p

/-- The random draws one call of `fetch_weather_data` consumes. -/
structure RandDraws where
  tempOffset : ℚ
  descIdx : Nat
  humidity : Nat
  pressure : Nat
  windRaw : ℚ
deriving DecidableEq

/-- The ranges guaranteed by the `random` library calls in
`fetch_weather_data`: `uniform(-5, 5)`, `choice` over ten labels,
`randint(30, 90)`, `randint(980, 1040)`, `uniform(0, 20)`. -/
def RandDraws.Valid (r : RandDraws) : Prop :=
  -5 ≤ r.tempOffset ∧ r.tempOffset ≤ 5 ∧ r.descIdx < 10 ∧
    30 ≤ r.humidity ∧ r.humidity ≤ 90 ∧
    980 ≤ r.pressure ∧ r.pressure ≤ 1040 ∧
    0 ≤ r.windRaw ∧ r.windRaw ≤ 20

instance (r : RandDraws) : Decidable r.Valid := by
  unfold RandDraws.Valid; infer_instance

/-- Python `round(q, 1)`: round to one decimal place. -/
def round1 (q : ℚ) : ℚ := (round (10 * q) : ℤ) / 10

/-- The fixed list of condition labels in `fetch_weather_data`. -/
def weather_descriptions : List (List Nat) :=
  [strNat "Sunny", strNat "Partly Cloudy", strNat "Cloudy", strNat "Rainy",
   strNat "Thunderstorm", strNat "Snowy", strNat "Foggy", strNat "Windy",
   strNat "Clear", strNat "Overcast"]

/-- The `WeatherData` pydantic model: the exact field names of the
response body. -/
structure WeatherData where
  city : List Nat
  temperature : ℚ
  description : List Nat
  humidity : Nat
  pressure : Nat
  wind_speed : ℚ
  timestamp : List Nat
deriving DecidableEq

/-- The temperature baseline of `fetch_weather_data`: base 20.0 adjusted
by the exclusive `if`/`elif` chain of case-insensitive substring checks
on the normalized city name. -/
def base_temp (normalized_city : List Nat) : ℚ :=
  if hasSub (pyLower normalized_city) (strNat "north")
      || hasSub (pyLower normalized_city) (strNat "northern") then 20 - 10
  else if hasSub (pyLower normalized_city) (strNat "south")
      || hasSub (pyLower normalized_city) (strNat "southern") then 20 + 10
  else if hasSub (pyLower normalized_city) (strNat "east") then 20 + 2
  else if hasSub (pyLower normalized_city) (strNat "west") then 20 - 2
  else 20

/-- `WeatherService.fetch_weather_data`, with the random draws and the
clock reading as explicit parameters. -/
def WeatherService.fetch_weather_data
    (city : List Nat) (r : RandDraws) (now : List Nat) : WeatherData :=
  let normalized_city := normalizeCity city
  { city := normalized_city
    temperature := round1 (base_temp normalized_city + r.tempOffset)
    description := weather_descriptions.getD r.descIdx []
    humidity := r.humidity
    pressure := r.pressure
    wind_speed := round1 r.windRaw
    timestamp := now }

/-- Outcome of one request to the `/weather/\x7bcity\x7d` route: either a
status together with a `WeatherData` body, or a status together with an
`HTTPException` detail string. -/
inductive HandlerResult where
  | success (status : Nat) (body : WeatherData)
  | failure (status : Nat) (detail : List Nat)
deriving DecidableEq

/-- The `get_weather` route handler: blank city gives a 400, otherwise
the generator's record is returned with status 200.  (The generator is
total, so the `except` branch returning a 500 never executes.) -/
def get_weather (city : List Nat) (r : RandDraws) (now : List Nat) :
    HandlerResult :=
  if city.isEmpty || (pyStrip city).isEmpty then
    .failure 400 (strNat "City name cannot be empty")
  else
    .success 200 (WeatherService.fetch_weather_data city r now)

/-- Case-insensitive containment as §4.1 of the spec words it: the
pattern occurs in the lowercased name. -/
def hasCI (name : List Nat) (p : String) : Bool :=
  hasSub (pyLower name) (strNat p)

/-- Directional adjustment exactly as the spec words it: an exclusive
priority chain north/northern (−10), south/southern (+10), east (+2),
west (−2), otherwise 0. -/
def specDirAdj (name : List Nat) : ℚ :=
  if hasCI name "north" || hasCI name "northern" then -10
  else if hasCI name "south" || hasCI name "southern" then 10
  else if hasCI name "east" then 2
  else if hasCI name "west" then -2
  else 0

/-- A fixed, in-range record of draws, used to instantiate universally
quantified theorems at concrete inputs. -/
def r0 : RandDraws :=
  { tempOffset := 0, descIdx := 0, humidity := 30, pressure := 980,
    windRaw := 0 }

/-! ## Character-level lemmas -/

theorem pySpace_upChar (n : Nat) : pySpace (upChar n) = pySpace n := by
  unfold upChar
  split_ifs with h
  · simp only [lowerAlpha, decide_eq_true_eq] at h
    simp only [pySpace, decide_eq_decide]
    omega
  · rfl

theorem pySpace_lowChar (n : Nat) : pySpace (lowChar n) = pySpace n := by
  unfold lowChar
  split_ifs with h
  · simp only [upperAlpha, decide_eq_true_eq] at h
    simp only [pySpace, decide_eq_decide]
    omega
  · rfl

theorem casedChar_upChar (n : Nat) : casedChar (upChar n) = casedChar n := by
  unfold upChar
  split_ifs with h
  · simp only [lowerAlpha, decide_eq_true_eq] at h
    rw [Bool.eq_iff_iff]
    simp only [casedChar, lowerAlpha, upperAlpha, Bool.or_eq_true, decide_eq_true_eq]
    omega
  · rfl

theorem casedChar_lowChar (n : Nat) : casedChar (lowChar n) = casedChar n := by
  unfold lowChar
  split_ifs with h
  · simp only [upperAlpha, decide_eq_true_eq] at h
    rw [Bool.eq_iff_iff]
    simp only [casedChar, lowerAlpha, upperAlpha, Bool.or_eq_true, decide_eq_true_eq]
    omega
  · rfl

theorem upChar_upChar (n : Nat) : upChar (upChar n) = upChar n := by
  unfold upChar
  split_ifs with h h2
  · simp only [lowerAlpha, decide_eq_true_eq] at h h2
    omega
  · rfl
  · rfl

theorem lowChar_lowChar (n : Nat) : lowChar (lowChar n) = lowChar n := by
  unfold lowChar
  split_ifs with h h2
  · simp only [upperAlpha, decide_eq_true_eq] at h h2
    omega
  · rfl
  · rfl

/-! ## Lemmas about stripping and title-casing -/

theorem dropWhile_head_false :
    ∀ (l : List Nat) (c : Nat) (cs : List Nat),
      l.dropWhile pySpace = c :: cs → pySpace c = false := by
  intro l
  induction l with
  | nil => intro c cs h; simp [List.dropWhile] at h
  | cons a as ih =>
    intro c cs h
    rw [List.dropWhile_cons] at h
    split at h
    · exact ih c cs h
    · rename_i ha
      cases h
      simpa using ha

theorem dropWhile_eq_drop (l : List Nat) :
    ∃ k, l.dropWhile pySpace = l.drop k := by
  induction l with
  | nil => exact ⟨0, rfl⟩
  | cons a as ih =>
    rw [List.dropWhile_cons]
    split
    · obtain ⟨k, hk⟩ := ih
      exact ⟨k + 1, by simpa using hk⟩
    · exact ⟨0, rfl⟩

theorem lstrip_cons_self (c : Nat) (ds : List Nat)
    (h : lstrip (c :: ds) = c :: ds) : pySpace c = false := by
  by_contra hc
  rw [Bool.not_eq_false] at hc
  have h2 : lstrip (c :: ds) = ds.dropWhile pySpace := by
    simp [lstrip, List.dropWhile_cons, hc]
  have h3 : (ds.dropWhile pySpace).length ≤ ds.length :=
    (List.dropWhile_sublist pySpace).length_le
  rw [h2] at h
  have := congrArg List.length h
  simp at this
  omega

theorem lstrip_idem (l : List Nat) : lstrip (lstrip l) = lstrip l := by
  rcases h : lstrip l with _ | ⟨c, cs⟩
  · rfl
  · have hc : pySpace c = false := dropWhile_head_false l c cs h
    simp [lstrip, List.dropWhile_cons, hc]

theorem rstrip_idem (l : List Nat) : rstrip (rstrip l) = rstrip l := by
  unfold rstrip
  rw [List.reverse_reverse]
  have : (l.reverse.dropWhile pySpace).dropWhile pySpace = l.reverse.dropWhile pySpace :=
    lstrip_idem l.reverse
  rw [this]

theorem head_rstrip (l : List Nat) (c : Nat) (cs : List Nat)
    (h : rstrip l = c :: cs) : ∃ ds, l = c :: ds := by
  obtain ⟨k, hk⟩ := dropWhile_eq_drop l.reverse
  unfold rstrip at h
  rw [hk] at h
  have h1 : l.reverse.drop k = cs.reverse ++ [c] := by
    have := congrArg List.reverse h
    simpa using this
  have h2 : l.reverse = l.reverse.take k ++ (cs.reverse ++ [c]) := by
    rw [← h1, List.take_append_drop]
  have h3 : l = c :: (cs ++ (l.reverse.take k).reverse) := by
    have := congrArg List.reverse h2
    simpa [List.reverse_append] using this
  exact ⟨_, h3⟩

theorem lstrip_rstrip (l : List Nat) (h : lstrip l = l) :
    lstrip (rstrip l) = rstrip l := by
  rcases hr : rstrip l with _ | ⟨c, cs⟩
  · rfl
  · obtain ⟨ds, rfl⟩ := head_rstrip l c cs hr
    have hc : pySpace c = false := lstrip_cons_self c ds h
    simp [lstrip, List.dropWhile_cons, hc]

theorem lstrip_pyStrip (l : List Nat) : lstrip (pyStrip l) = pyStrip l :=
  lstrip_rstrip (lstrip l) (lstrip_idem l)

theorem rstrip_pyStrip (l : List Nat) : rstrip (pyStrip l) = pyStrip l :=
  rstrip_idem (lstrip l)

theorem titleAux_map_space (b : Bool) (l : List Nat) :
    (titleAux b l).map pySpace = l.map pySpace := by
  induction l generalizing b with
  | nil => rfl
  | cons c cs ih =>
    simp only [titleAux, List.map_cons, ih]
    congr 1
    split_ifs with hc hb
    · exact pySpace_lowChar c
    · exact pySpace_upChar c
    · rfl

theorem lstrip_eq_self_of_map_eq (u t : List Nat)
    (hm : u.map pySpace = t.map pySpace) (ht : lstrip t = t) :
    lstrip u = u := by
  rcases t with _ | ⟨c, cs⟩
  · have : u = [] := by simpa using hm
    simp [this, lstrip]
  · rcases u with _ | ⟨c2, cs2⟩
    · rfl
    · simp only [List.map_cons, List.cons.injEq] at hm
      have hc : pySpace c = false := lstrip_cons_self c cs ht
      have hc2 : pySpace c2 = false := hm.1.trans hc
      simp [lstrip, List.dropWhile_cons, hc2]

theorem rstrip_eq_self_iff (x : List Nat) :
    rstrip x = x ↔ lstrip x.reverse = x.reverse := by
  constructor
  · intro h
    have := congrArg List.reverse h
    simpa [rstrip, lstrip] using this
  · intro h
    unfold rstrip
    unfold lstrip at h
    rw [h, List.reverse_reverse]

theorem rstrip_eq_self_of_map_eq (u t : List Nat)
    (hm : u.map pySpace = t.map pySpace) (ht : rstrip t = t) :
    rstrip u = u := by
  rw [rstrip_eq_self_iff] at ht ⊢
  refine lstrip_eq_self_of_map_eq u.reverse t.reverse ?_ ht
  rw [List.map_reverse, List.map_reverse, hm]

theorem titleAux_idem (b : Bool) (l : List Nat) :
    titleAux b (titleAux b l) = titleAux b l := by
  induction l generalizing b with
  | cons c cs ih =>
    by_cases hc : casedChar c = true
    · by_cases hb : b = true
      · subst hb
        simp [titleAux, hc, casedChar_lowChar, lowChar_lowChar, ih]
      · have hb2 : b = false := by simpa using hb
        subst hb2
        simp [titleAux, hc, casedChar_upChar, upChar_upChar, ih]
    · have hc2 : casedChar c = false := by simpa using hc
      simp [titleAux, hc2, ih]
  | nil => rfl

theorem pyStrip_pyTitle_pyStrip (s : List Nat) :
    pyStrip (pyTitle (pyStrip s)) = pyTitle (pyStrip s) := by
  have hmap : (pyTitle (pyStrip s)).map pySpace = (pyStrip s).map pySpace :=
    titleAux_map_space false (pyStrip s)
  have h1 : lstrip (pyTitle (pyStrip s)) = pyTitle (pyStrip s) :=
    lstrip_eq_self_of_map_eq _ _ hmap (lstrip_pyStrip s)
  have h2 : rstrip (pyTitle (pyStrip s)) = pyTitle (pyStrip s) :=
    rstrip_eq_self_of_map_eq _ _ hmap (rstrip_pyStrip s)
  have hdef : pyStrip (pyTitle (pyStrip s)) = rstrip (lstrip (pyTitle (pyStrip s))) := rfl
  rw [hdef, h1, h2]

/-! ## Rounding lemmas -/

theorem round1_bounds (q : ℚ) (h0 : 0 ≤ q) (h1 : q ≤ 20) :
    0 ≤ round1 q ∧ round1 q ≤ 20 := by
  unfold round1
  rw [round_eq]
  constructor
  · have hf : (0 : ℤ) ≤ ⌊10 * q + 1 / 2⌋ := Int.floor_nonneg.mpr (by linarith)
    have : (0 : ℚ) ≤ (⌊10 * q + 1 / 2⌋ : ℚ) := by exact_mod_cast hf
    linarith
  · have hf : ⌊10 * q + 1 / 2⌋ < 201 := by
      rw [Int.floor_lt]
      push_cast
      linarith
    have hf2 : (⌊10 * q + 1 / 2⌋ : ℚ) ≤ 200 := by exact_mod_cast Int.lt_add_one_iff.mp hf
    linarith

/-! ## The temperature baseline agrees with the spec-side adjustment -/

theorem base_temp_eq (n : List Nat) : base_temp n = 20 + specDirAdj n := by
  unfold base_temp specDirAdj hasCI
  split_ifs <;> norm_num

/-- Membership helper for `random.choice` over the ten labels. -/
theorem getD_mem_of_lt (k : Nat) (hk : k < 10) :
    weather_descriptions.getD k [] ∈ weather_descriptions := by
  interval_cases k <;> decide

/-- The fixed draws record `r0` lies in the library-guaranteed ranges. -/
theorem r0_valid : r0.Valid := by decide

/-! ## Claims -/

/-- C1: for every city string, the generated temperature is base 20.0
plus exactly one directional adjustment — chosen by case-insensitive
substring match on the normalized name in the exclusive priority order
north/northern (−10), south/southern (+10), east (+2), west (−2),
otherwise 0 — plus the random offset drawn from [-5, 5], rounded to one
decimal place; in particular a name containing "north" always gets the
−10 adjustment and nothing else. -/
theorem temperature_directional_rule
    (city : List Nat) (r : RandDraws) (now : List Nat) (h : r.Valid) :
    (WeatherService.fetch_weather_data city r now).temperature
        = round1 (20 + specDirAdj (normalizeCity city) + r.tempOffset)
      ∧ -5 ≤ r.tempOffset ∧ r.tempOffset ≤ 5
      ∧ (hasCI (normalizeCity city) "north" = true →
          specDirAdj (normalizeCity city) = -10) := by
  obtain ⟨h1, h2, -⟩ := h
  refine ⟨?_, h1, h2, ?_⟩
  · simp only [WeatherService.fetch_weather_data]
    rw [base_temp_eq]
  · intro hn
    unfold specDirAdj
    rw [if_pos]
    simp [hn]

/-- Witness for C1 at the city "Northeast City" with the draws `r0`. -/
theorem temperature_directional_rule_witness :
    (WeatherService.fetch_weather_data (strNat "Northeast City") r0 []).temperature
        = round1 (20 + specDirAdj (normalizeCity (strNat "Northeast City")) + r0.tempOffset)
      ∧ -5 ≤ r0.tempOffset ∧ r0.tempOffset ≤ 5
      ∧ (hasCI (normalizeCity (strNat "Northeast City")) "north" = true →
          specDirAdj (normalizeCity (strNat "Northeast City")) = -10) :=
  temperature_directional_rule (strNat "Northeast City") r0 [] r0_valid

/-- C2 counterexample: on a whitespace-only city the handler does return
status 400, but its detail string is "City name cannot be empty" with no
trailing period, not the claimed "City name cannot be empty.". -/
theorem blank_city_message_counterexample :
    get_weather (strNat " ") r0 [] =
        HandlerResult.failure 400 (strNat "City name cannot be empty")
      ∧ strNat "City name cannot be empty" ≠ strNat "City name cannot be empty." :=
  ⟨by decide, by decide⟩

/-- C2 (amended): for every request whose city segment is empty or
whitespace-only, the handler fails with status 400 and the message
"City name cannot be empty" (no trailing period), and the generator's
record is not produced. -/
theorem blank_city_gives_400
    (city : List Nat) (r : RandDraws) (now : List Nat)
    (h : pyStrip city = []) :
    get_weather city r now =
      HandlerResult.failure 400 (strNat "City name cannot be empty") := by
  unfold get_weather
  rw [if_pos]
  simp [h]

/-- Witness for the amended C2 at the whitespace city " ". -/
theorem blank_city_gives_400_witness :
    get_weather (strNat " ") r0 (strNat "2025-01-01T00:00:00") =
      HandlerResult.failure 400 (strNat "City name cannot be empty") :=
  blank_city_gives_400 (strNat " ") r0 (strNat "2025-01-01T00:00:00") (by decide)

/-- C3: for every input string and every record of draws in the ranges
the `random` library guarantees, the generated record has humidity in
[30, 90], pressure in [980, 1040], wind speed in [0, 20], and a
temperature that is an integer number of tenths (one decimal place). -/
theorem record_field_ranges
    (city : List Nat) (r : RandDraws) (now : List Nat) (h : r.Valid) :
    30 ≤ (WeatherService.fetch_weather_data city r now).humidity
      ∧ (WeatherService.fetch_weather_data city r now).humidity ≤ 90
      ∧ 980 ≤ (WeatherService.fetch_weather_data city r now).pressure
      ∧ (WeatherService.fetch_weather_data city r now).pressure ≤ 1040
      ∧ 0 ≤ (WeatherService.fetch_weather_data city r now).wind_speed
      ∧ (WeatherService.fetch_weather_data city r now).wind_speed ≤ 20
      ∧ ∃ n : ℤ, (WeatherService.fetch_weather_data city r now).temperature
          = (n : ℚ) / 10 := by
  obtain ⟨-, -, -, h4, h5, h6, h7, h8, h9⟩ := h
  simp only [WeatherService.fetch_weather_data]
  exact ⟨h4, h5, h6, h7, (round1_bounds r.windRaw h8 h9).1,
    (round1_bounds r.windRaw h8 h9).2,
    round (10 * (base_temp (normalizeCity city) + r.tempOffset)), rfl⟩

/-- Witness for C3 at the city "London" with the draws `r0`. -/
theorem record_field_ranges_witness :
    30 ≤ (WeatherService.fetch_weather_data (strNat "London") r0 []).humidity
      ∧ (WeatherService.fetch_weather_data (strNat "London") r0 []).humidity ≤ 90
      ∧ 980 ≤ (WeatherService.fetch_weather_data (strNat "London") r0 []).pressure
      ∧ (WeatherService.fetch_weather_data (strNat "London") r0 []).pressure ≤ 1040
      ∧ 0 ≤ (WeatherService.fetch_weather_data (strNat "London") r0 []).wind_speed
      ∧ (WeatherService.fetch_weather_data (strNat "London") r0 []).wind_speed ≤ 20
      ∧ ∃ n : ℤ, (WeatherService.fetch_weather_data (strNat "London") r0 []).temperature
          = (n : ℚ) / 10 :=
  record_field_ranges (strNat "London") r0 [] r0_valid

/-- C4: the city field of the generator's result is exactly the input
with surrounding whitespace trimmed and title-casing applied, for every
input, every record of draws and every clock reading. -/
theorem city_field_normalized
    (city : List Nat) (r : RandDraws) (now : List Nat) :
    (WeatherService.fetch_weather_data city r now).city
      = pyTitle (pyStrip city) := rfl

/-- C5: for every city that is non-blank after stripping, the handler
returns status 200 with exactly the record produced by the generator
(whose fields are precisely city, temperature, description, humidity,
pressure, wind_speed, timestamp). -/
theorem ok_response_for_valid_city
    (city : List Nat) (r : RandDraws) (now : List Nat)
    (h : pyStrip city ≠ []) :
    get_weather city r now =
      HandlerResult.success 200 (WeatherService.fetch_weather_data city r now) := by
  unfold get_weather
  rw [if_neg]
  simp only [Bool.or_eq_true, List.isEmpty_iff, not_or]
  refine ⟨?_, h⟩
  intro hc
  subst hc
  exact h rfl

/-- Witness for C5 at the city "London". -/
theorem ok_response_for_valid_city_witness :
    get_weather (strNat "London") r0 [] =
      HandlerResult.success 200
        (WeatherService.fetch_weather_data (strNat "London") r0 []) :=
  ok_response_for_valid_city (strNat "London") r0 [] (by decide)

/-- C6: for every input and every in-range record of draws, the
description field is one of exactly the ten labels Sunny, Partly Cloudy,
Cloudy, Rainy, Thunderstorm, Snowy, Foggy, Windy, Clear, Overcast, in
that fixed order. -/
theorem description_among_labels
    (city : List Nat) (r : RandDraws) (now : List Nat) (h : r.Valid) :
    (WeatherService.fetch_weather_data city r now).description ∈ weather_descriptions
      ∧ weather_descriptions =
          [strNat "Sunny", strNat "Partly Cloudy", strNat "Cloudy", strNat "Rainy",
           strNat "Thunderstorm", strNat "Snowy", strNat "Foggy", strNat "Windy",
           strNat "Clear", strNat "Overcast"] := by
  refine ⟨?_, rfl⟩
  obtain ⟨-, -, h3, -⟩ := h
  simp only [WeatherService.fetch_weather_data]
  exact getD_mem_of_lt r.descIdx h3

/-- Witness for C6 at the city "London" with the draws `r0`. -/
theorem description_among_labels_witness :
    (WeatherService.fetch_weather_data (strNat "London") r0 []).description
        ∈ weather_descriptions
      ∧ weather_descriptions =
          [strNat "Sunny", strNat "Partly Cloudy", strNat "Cloudy", strNat "Rainy",
           strNat "Thunderstorm", strNat "Snowy", strNat "Foggy", strNat "Windy",
           strNat "Clear", strNat "Overcast"] :=
  description_among_labels (strNat "London") r0 [] r0_valid

/-- C7: normalization (strip then title-case) is idempotent on every
input string. -/
theorem normalization_idempotent (s : List Nat) :
    normalizeCity (normalizeCity s) = normalizeCity s := by
  unfold normalizeCity
  rw [pyStrip_pyTitle_pyStrip]
  exact titleAux_idem false (pyStrip s)

/-- C8: for every non-blank city the generation step is total, so the
handler never takes the defensive 500 branch — it produces no failure
response at all. -/
theorem generation_cannot_fail
    (city : List Nat) (r : RandDraws) (now : List Nat)
    (status : Nat) (detail : List Nat)
    (h : pyStrip city ≠ []) :
    get_weather city r now ≠ HandlerResult.failure status detail := by
  unfold get_weather
  rw [if_neg]
  · simp
  · simp only [Bool.or_eq_true, List.isEmpty_iff, not_or]
    refine ⟨?_, h⟩
    intro hc
    subst hc
    exact h rfl

/-- Witness for C8 at the city "London" against a 500 failure. -/
theorem generation_cannot_fail_witness :
    get_weather (strNat "London") r0 [] ≠
      HandlerResult.failure 500 (strNat "Error fetching weather data: ") :=
  generation_cannot_fail (strNat "London") r0 [] 500
    (strNat "Error fetching weather data: ") (by decide)

/-- C9: the city field of the generator's result depends only on the
input string — two runs with arbitrary different draws and clock
readings return equal city fields. -/
theorem city_independent_of_randomness
    (city : List Nat) (r1 r2 : RandDraws) (now1 now2 : List Nat) :
    (WeatherService.fetch_weather_data city r1 now1).city
      = (WeatherService.fetch_weather_data city r2 now2).city := rfl

/-- C10: for every input that passes the handler's validation (non-empty
after stripping), the city field of the record is a non-empty string. -/
theorem normalized_city_nonempty
    (city : List Nat) (r : RandDraws) (now : List Nat)
    (h : pyStrip city ≠ []) :
    (WeatherService.fetch_weather_data city r now).city ≠ [] := by
  intro he
  have h2 : titleAux false (pyStrip city) = [] := he
  have hm := titleAux_map_space false (pyStrip city)
  rw [h2] at hm
  have := congrArg List.length hm
  simp only [List.length_map, List.length_nil] at this
  exact h (List.eq_nil_of_length_eq_zero this.symm)

/-- Witness for C10 at the city "London". -/
theorem normalized_city_nonempty_witness :
    (WeatherService.fetch_weather_data (strNat "London") r0 []).city ≠ [] :=
  normalized_city_nonempty (strNat "London") r0 [] (by decide)
